import Mathlib

/-!
Shallow embedding of `utils_nlp/models/transformers/common.py` and
`utils_nlp/models/transformers/sequence_classification.py`.

The external transformers library (tokenizers, model classes, optimizer,
scheduler) is abstracted: the tokenizer is a record of the four members the
preprocessing code actually uses, the model's forward pass is abstracted
into per-batch loss values (training) and per-example logit rows
(inference), and the four pretrained-archive key maps imported from the
library are modelled by their key sets.  Python exceptions are modelled
with `Except`; a Python function body with no return statement yields
`Option.none`.
-/

namespace NlpRecipes

/-- Hard ceiling on sequence length (`common.py`, `MAX_SEQ_LEN = 512`). -/
def MAX_SEQ_LEN : Nat := 512

/-- Python list slice `xs[0:stop]` where `stop` may be negative: a
nonnegative `stop` keeps the first `stop` elements, a negative `stop`
keeps all but the last `|stop|` elements (clamped at zero). -/
def pySlice0 {α : Type} (xs : List α) (stop : Int) : List α :=
  if stop < 0 then xs.take (xs.length - stop.natAbs) else xs.take stop.toNat

/-- Exceptions raised by the embedded code paths. -/
inductive PyError where
  | keyError (key : String)
  | valueError (msg : String)
  | zeroDivisionError
  | unboundLocalError (name : String)
deriving DecidableEq

/-- The external tokenizer object, abstracted to the four members used by
`Processor.preprocess`: `tokenize`, `convert_tokens_to_ids`, `cls_token`
and `sep_token`.  Vocabulary ids are nonnegative integers. -/
structure Tokenizer where
  tokenize : String → List String
  convert_tokens_to_ids : String → Nat
  cls_token : String
  sep_token : String

/-- Python `model_name.split("-")[0]`: the part before the first hyphen. -/
def model_type_of (model_name : String) : String :=
  String.mk (model_name.toList.takeWhile (fun c => c ≠ '-'))

namespace Processor

/-- The clamping at the top of `Processor.preprocess`:
`if max_len > MAX_SEQ_LEN: max_len = MAX_SEQ_LEN`. -/
def clamp_max_len (max_len : Nat) : Nat :=
  if max_len > MAX_SEQ_LEN then MAX_SEQ_LEN else max_len

/-- `Processor.preprocess` prints a warning exactly when the requested
length exceeds the ceiling. -/
def warns (max_len : Nat) : Bool := max_len > MAX_SEQ_LEN

/-- Tokens of one text after truncation and marker insertion:
`[self.tokenizer.cls_token] + x[0 : max_len - 2] + [self.tokenizer.sep_token]`.
In Python `max_len - 2` is a possibly negative int, hence `pySlice0`. -/
def marked_tokens (tk : Tokenizer) (max_len : Nat) (text : String) : List String :=
  tk.cls_token :: (pySlice0 (tk.tokenize text) ((max_len : Int) - 2) ++ [tk.sep_token])

/-- Ids of one text: token ids then right padding with zeros,
`x + [0] * (max_len - len(x))`. -/
def input_ids (tk : Tokenizer) (max_len : Nat) (text : String) : List Nat :=
  let ids := (marked_tokens tk max_len text).map tk.convert_tokens_to_ids
  ids ++ List.replicate (max_len - ids.length) 0

/-- Mask of one text: `[min(1, x) for x in y]` over the padded ids. -/
def input_mask (tk : Tokenizer) (max_len : Nat) (text : String) : List Nat :=
  (input_ids tk max_len text).map (fun x => min 1 x)

/-- The `TensorDataset` built at the end of `Processor.preprocess`. -/
structure TensorDataset where
  input_ids : List (List Nat)
  input_mask : List (List Nat)
  labels : Option (List Nat)
deriving DecidableEq

/-- `Processor.preprocess(text, labels, max_len)`. -/
def preprocess (tk : Tokenizer) (text : List String) (labels : Option (List Nat))
    (max_len : Nat) : TensorDataset :=
  let m := clamp_max_len max_len
  { input_ids := text.map (input_ids tk m)
    input_mask := text.map (input_mask tk m)
    labels := labels }

end Processor

/-! Key sets of the four pretrained-archive maps imported from the
transformers library (external constants, modelled by their keys). -/

/-- Keys of `BERT_PRETRAINED_MODEL_ARCHIVE_MAP` (external library constant). -/
def BERT_PRETRAINED_MODEL_ARCHIVE_MAP : List String :=
  ["bert-base-uncased", "bert-large-uncased", "bert-base-cased",
   "bert-large-cased", "bert-base-multilingual-uncased",
   "bert-base-multilingual-cased", "bert-base-chinese",
   "bert-base-german-cased", "bert-large-uncased-whole-word-masking",
   "bert-large-cased-whole-word-masking",
   "bert-large-uncased-whole-word-masking-finetuned-squad",
   "bert-large-cased-whole-word-masking-finetuned-squad",
   "bert-base-cased-finetuned-mrpc"]

/-- Keys of `ROBERTA_PRETRAINED_MODEL_ARCHIVE_MAP` (external library constant). -/
def ROBERTA_PRETRAINED_MODEL_ARCHIVE_MAP : List String :=
  ["roberta-base", "roberta-large", "roberta-large-mnli"]

/-- Keys of `XLNET_PRETRAINED_MODEL_ARCHIVE_MAP` (external library constant). -/
def XLNET_PRETRAINED_MODEL_ARCHIVE_MAP : List String :=
  ["xlnet-base-cased", "xlnet-large-cased"]

/-- Keys of `DISTILBERT_PRETRAINED_MODEL_ARCHIVE_MAP` (external library constant). -/
def DISTILBERT_PRETRAINED_MODEL_ARCHIVE_MAP : List String :=
  ["distilbert-base-uncased", "distilbert-base-uncased-distilled-squad"]

/-- The tokenizer classes appearing as values of `TOKENIZER_CLASS`. -/
inductive TokenizerClass where
  | bert | roberta | xlnet | distilbert
deriving DecidableEq

/-- The model classes appearing as values of `MODEL_CLASS`. -/
inductive ModelClass where
  | bertSC | robertaSC | xlnetSC | distilbertSC
deriving DecidableEq

/-- `TOKENIZER_CLASS` built by the four `update` calls in `common.py`
(bert, roberta, xlnet, distilbert in that order); the four key families
are pairwise disjoint so update order only fixes insertion order. -/
def TOKENIZER_CLASS : List (String × TokenizerClass) :=
  BERT_PRETRAINED_MODEL_ARCHIVE_MAP.map (fun k => (k, TokenizerClass.bert)) ++
  ROBERTA_PRETRAINED_MODEL_ARCHIVE_MAP.map (fun k => (k, TokenizerClass.roberta)) ++
  XLNET_PRETRAINED_MODEL_ARCHIVE_MAP.map (fun k => (k, TokenizerClass.xlnet)) ++
  DISTILBERT_PRETRAINED_MODEL_ARCHIVE_MAP.map (fun k => (k, TokenizerClass.distilbert))

/-- `MODEL_CLASS` built by the four `update` calls in
`sequence_classification.py` (bert, roberta, xlnet, distilbert order). -/
def MODEL_CLASS : List (String × ModelClass) :=
  BERT_PRETRAINED_MODEL_ARCHIVE_MAP.map (fun k => (k, ModelClass.bertSC)) ++
  ROBERTA_PRETRAINED_MODEL_ARCHIVE_MAP.map (fun k => (k, ModelClass.robertaSC)) ++
  XLNET_PRETRAINED_MODEL_ARCHIVE_MAP.map (fun k => (k, ModelClass.xlnetSC)) ++
  DISTILBERT_PRETRAINED_MODEL_ARCHIVE_MAP.map (fun k => (k, ModelClass.distilbertSC))

/-- `SequenceClassifier.list_supported_models()` is `list(MODEL_CLASS)`. -/
def list_supported_models : List String := MODEL_CLASS.map Prod.fst

end NlpRecipes

namespace NlpRecipes

/-! Helper lemmas about `List.getD`, for talking about positions in the
padded id and mask sequences. -/

theorem getD_map_min (l : List Nat) (i : Nat) :
    (l.map (fun x => min 1 x)).getD i 0 = min 1 (l.getD i 0) := by
  induction l generalizing i with
  | nil => simp
  | cons x xs ih =>
    cases i with
    | zero => simp
    | succ j =>
      simp only [List.map_cons, List.getD_cons_succ]
      exact ih j

theorem getD_append_left {α : Type} (l₁ l₂ : List α) (i : Nat) (d : α)
    (h : i < l₁.length) : (l₁ ++ l₂).getD i d = l₁.getD i d := by
  induction l₁ generalizing i with
  | nil => simp at h
  | cons x xs ih =>
    cases i with
    | zero => simp
    | succ j =>
      simp only [List.cons_append, List.getD_cons_succ]
      exact ih j (by simp at h; omega)

theorem getD_append_right {α : Type} (l₁ l₂ : List α) (i : Nat) (d : α)
    (h : l₁.length ≤ i) : (l₁ ++ l₂).getD i d = l₂.getD (i - l₁.length) d := by
  induction l₁ generalizing i with
  | nil => simp
  | cons x xs ih =>
    cases i with
    | zero => simp at h
    | succ j =>
      simp only [List.cons_append, List.getD_cons_succ, List.length_cons]
      rw [ih j (by simp at h; omega)]
      congr 1
      omega

theorem getD_replicate (n i : Nat) : (List.replicate n (0 : Nat)).getD i 0 = 0 := by
  induction n generalizing i with
  | zero => simp
  | succ k ih =>
    cases i with
    | zero => simp [List.replicate]
    | succ j =>
      simp only [List.replicate, List.getD_cons_succ]
      exact ih j

theorem getD_map_lt {α β : Type} (f : α → β) (l : List α) (d : β) (i : Nat)
    (h : i < l.length) : (l.map f).getD i d = f (l.get ⟨i, h⟩) := by
  induction l generalizing i with
  | nil => simp at h
  | cons x xs ih =>
    cases i with
    | zero => simp
    | succ j =>
      simp only [List.map_cons, List.getD_cons_succ]
      exact ih j (by simp at h; omega)

theorem zip_self_map {α β : Type} (l : List α) (f : α → β) :
    l.zip (l.map f) = l.map (fun a => (a, f a)) := by
  induction l with
  | nil => rfl
  | cons x xs ih => simp [ih]

theorem zip_map_pair {α β γ : Type} (l : List α) (f : α → β) (g : α → γ) :
    (l.map f).zip (l.map g) = l.map (fun a => (f a, g a)) := by
  induction l with
  | nil => rfl
  | cons x xs ih => simp [ih]

/-- For a clamped length of at least 2, the Python slice `x[0 : max_len - 2]`
is an ordinary prefix of length `max_len - 2`. -/
theorem pySlice0_of_two_le {α : Type} (xs : List α) {m : Nat} (h : 2 ≤ m) :
    pySlice0 xs ((m : Int) - 2) = xs.take (m - 2) := by
  unfold pySlice0
  rw [if_neg (by omega)]
  congr 1
  omega

/-- Every element of a Python prefix slice comes from the sliced list. -/
theorem pySlice0_subset {α : Type} (xs : List α) (stop : Int) :
    ∀ a ∈ pySlice0 xs stop, a ∈ xs := by
  unfold pySlice0
  split
  · exact fun a ha => List.take_subset _ _ ha
  · exact fun a ha => List.take_subset _ _ ha

theorem marked_tokens_length_le (tk : Tokenizer) (m : Nat) (t : String) (h2 : 2 ≤ m) :
    (Processor.marked_tokens tk m t).length ≤ m := by
  simp only [Processor.marked_tokens, pySlice0_of_two_le _ h2, List.length_cons,
    List.length_append, List.length_take, List.length_nil]
  omega

theorem input_ids_length (tk : Tokenizer) (m : Nat) (t : String) (h2 : 2 ≤ m) :
    (Processor.input_ids tk m t).length = m := by
  have hml := marked_tokens_length_le tk m t h2
  simp only [Processor.input_ids, List.length_append, List.length_replicate,
    List.length_map]
  omega

theorem input_mask_getD (tk : Tokenizer) (m : Nat) (t : String) (i : Nat) :
    (Processor.input_mask tk m t).getD i 0 =
      min 1 ((Processor.input_ids tk m t).getD i 0) := by
  simp only [Processor.input_mask]
  exact getD_map_min _ _

/-- A concrete tokenizer instance used in counterexamples and witnesses;
the id assignment mirrors BERT vocabulary conventions on the tokens
involved, and every token has a non-zero id. -/
def tokBert : Tokenizer where
  tokenize := fun _ => ["a", "b", "c"]
  convert_tokens_to_ids := fun s =>
    if s = "[CLS]" then 101 else if s = "[SEP]" then 102
    else if s = "a" then 5 else if s = "b" then 6 else if s = "c" then 7 else 100
  cls_token := "[CLS]"
  sep_token := "[SEP]"

/-- A concrete tokenizer instance whose text tokenizes to the padding
token, which (as in the BERT vocabulary) has id 0. -/
def tokPad : Tokenizer where
  tokenize := fun _ => ["[PAD]"]
  convert_tokens_to_ids := fun s =>
    if s = "[CLS]" then 101 else if s = "[SEP]" then 102
    else if s = "[PAD]" then 0 else 100
  cls_token := "[CLS]"
  sep_token := "[SEP]"

/-- Claim C1 (amended): for every input list of texts and every requested
`max_len` whose clamped value is at least 2, each example produced by
`Processor.preprocess` has ids and mask of length exactly the clamped
`max_len`, and the mask is 1 at a position exactly when the id there is
non-zero. -/
theorem C1_preprocess_lengths_and_mask (tk : Tokenizer) (text : List String)
    (labels : Option (List Nat)) (max_len : Nat)
    (h2 : 2 ≤ Processor.clamp_max_len max_len) :
    ∀ p ∈ ((Processor.preprocess tk text labels max_len).input_ids).zip
        ((Processor.preprocess tk text labels max_len).input_mask),
      p.1.length = Processor.clamp_max_len max_len ∧
      p.2.length = Processor.clamp_max_len max_len ∧
      ∀ i : Nat, (p.2.getD i 0 = 1 ↔ p.1.getD i 0 ≠ 0) := by
  intro p hp
  simp only [Processor.preprocess] at hp
  rw [zip_map_pair] at hp
  obtain ⟨t, ht, rfl⟩ := List.mem_map.mp hp
  refine ⟨input_ids_length tk _ t h2, ?_, ?_⟩
  · simp only [Processor.input_mask, List.length_map]
    exact input_ids_length tk _ t h2
  · intro i
    rw [input_mask_getD]
    generalize (Processor.input_ids tk (Processor.clamp_max_len max_len) t).getD i 0 = x
    omega

/-- Witness for C1 at a concrete tokenizer, one text and `max_len = 512`. -/
theorem C1_preprocess_lengths_and_mask_witness :
    2 ≤ Processor.clamp_max_len 512 ∧
    ∀ p ∈ ((Processor.preprocess tokBert ["t"] none 512).input_ids).zip
        ((Processor.preprocess tokBert ["t"] none 512).input_mask),
      p.1.length = Processor.clamp_max_len 512 ∧
      p.2.length = Processor.clamp_max_len 512 ∧
      ∀ i : Nat, (p.2.getD i 0 = 1 ↔ p.1.getD i 0 ≠ 0) :=
  ⟨by decide, C1_preprocess_lengths_and_mask tokBert ["t"] none 512 (by decide)⟩

/-- Counterexample to C1 as stated: for the requested `max_len = 1` (not
clamped, since 1 is below the ceiling) the Python slice `x[0:-1]` keeps
all but the last token, so the example's ids sequence has length 4, not
the (possibly clamped) `max_len = 1`. -/
theorem C1_counterexample :
    Processor.clamp_max_len 1 = 1 ∧
    ((Processor.preprocess tokBert ["t"] none 1).input_ids.getD 0 []).length = 4 := by
  decide

/-- The ids sequence exactly as claim C4 words it (spec-side formula, for
comparison with the code's `Processor.input_ids`): the start marker id,
the ids of the first `min(token_count, max_len - 2)` tokens, the end
marker id, then zeros up to `max_len`; subtraction truncates at zero. -/
def spec_claimed_ids (tk : Tokenizer) (max_len : Nat) (text : String) : List Nat :=
  let toks := tk.tokenize text
  let kept := toks.take (min toks.length (max_len - 2))
  let ids := (tk.cls_token :: (kept ++ [tk.sep_token])).map tk.convert_tokens_to_ids
  ids ++ List.replicate (max_len - ids.length) 0

theorem input_ids_eq_spec (tk : Tokenizer) (m : Nat) (t : String) (h2 : 2 ≤ m) :
    Processor.input_ids tk m t = spec_claimed_ids tk m t := by
  simp only [Processor.input_ids, spec_claimed_ids, Processor.marked_tokens,
    pySlice0_of_two_le _ h2]
  have htake : (tk.tokenize t).take (m - 2) =
      (tk.tokenize t).take (min (tk.tokenize t).length (m - 2)) := by
    rw [List.take_eq_take]
    omega
  rw [htake]

/-- Claim C4 (amended): for every input text and every requested `max_len`
whose clamped value is at least 2, `Processor.preprocess` produces ids
equal to the spec formula: start marker id, ids of the first
`min(token_count, clamped max_len - 2)` tokens, end marker id, trailing
zeros up to the clamped `max_len`. -/
theorem C4_preprocess_ids_formula (tk : Tokenizer) (text : List String)
    (labels : Option (List Nat)) (max_len : Nat)
    (h2 : 2 ≤ Processor.clamp_max_len max_len) :
    (Processor.preprocess tk text labels max_len).input_ids =
      text.map (spec_claimed_ids tk (Processor.clamp_max_len max_len)) := by
  simp only [Processor.preprocess]
  have hf : Processor.input_ids tk (Processor.clamp_max_len max_len) =
      spec_claimed_ids tk (Processor.clamp_max_len max_len) :=
    funext (fun t => input_ids_eq_spec tk _ t h2)
  rw [hf]

/-- Witness for C4 at a concrete tokenizer, one text and `max_len = 512`. -/
theorem C4_preprocess_ids_formula_witness :
    2 ≤ Processor.clamp_max_len 512 ∧
    (Processor.preprocess tokBert ["t"] none 512).input_ids =
      ["t"].map (spec_claimed_ids tokBert (Processor.clamp_max_len 512)) :=
  ⟨by decide, C4_preprocess_ids_formula tokBert ["t"] none 512 (by decide)⟩

/-- Counterexample to C4 as stated: at the requested `max_len = 1` the code
keeps all but the last token (Python slice `x[0:-1]`) and produces
`[101, 5, 6, 102]`, while the claim's formula keeps `min(3, 1 - 2) = 0`
tokens and yields `[101, 102]`. -/
theorem C4_counterexample :
    (Processor.preprocess tokBert ["t"] none 1).input_ids = [[101, 5, 6, 102]] ∧
    spec_claimed_ids tokBert (Processor.clamp_max_len 1) "t" = [101, 102] := by
  decide

/-- Core of C3: when the clamped length is at least 2 and every marked
token has a non-zero id, the mask is 1 exactly at the real-token
positions (below the marked-token count) and 0 at the trailing padding. -/
theorem mask_marks_real_tokens (tk : Tokenizer) (m : Nat) (t : String)
    (hnz : ∀ s ∈ Processor.marked_tokens tk m t, tk.convert_tokens_to_ids s ≠ 0) :
    ∀ i, i < m →
      ((Processor.input_mask tk m t).getD i 0 = 1 ↔
        i < (Processor.marked_tokens tk m t).length) := by
  intro i him
  rw [input_mask_getD]
  rw [show Processor.input_ids tk m t
      = (Processor.marked_tokens tk m t).map tk.convert_tokens_to_ids ++
        List.replicate
          (m - ((Processor.marked_tokens tk m t).map tk.convert_tokens_to_ids).length) 0
    from rfl]
  by_cases hcase : i < (Processor.marked_tokens tk m t).length
  · rw [getD_append_left _ _ _ _ (by simp only [List.length_map]; omega)]
    rw [getD_map_lt _ _ _ i hcase]
    have hne := hnz ((Processor.marked_tokens tk m t).get ⟨i, hcase⟩)
      (List.get_mem _ i hcase)
    generalize tk.convert_tokens_to_ids ((Processor.marked_tokens tk m t).get ⟨i, hcase⟩) = x at hne
    omega
  · rw [getD_append_right _ _ _ _ (by simp only [List.length_map]; omega)]
    rw [getD_replicate]
    omega

/-- Claim C3 (amended): for every example produced by
`Processor.preprocess` with a tokenizer assigning non-zero ids to the
start marker, the end marker and every text token, the attention mask is
1 at exactly the real-token positions and 0 at exactly the trailing
padding positions.  (In general the mask is only the indicator of
non-zero ids, so a real token whose id is 0 gets mask 0: see the
counterexample.) -/
theorem C3_mask_real_vs_padding (tk : Tokenizer) (texts : List String)
    (labels : Option (List Nat)) (max_len : Nat)
    (hcls : tk.convert_tokens_to_ids tk.cls_token ≠ 0)
    (hsep : tk.convert_tokens_to_ids tk.sep_token ≠ 0)
    (htok : ∀ t ∈ texts, ∀ s ∈ tk.tokenize t, tk.convert_tokens_to_ids s ≠ 0) :
    ∀ p ∈ texts.zip ((Processor.preprocess tk texts labels max_len).input_mask),
      ∀ i, i < Processor.clamp_max_len max_len →
        (p.2.getD i 0 = 1 ↔
          i < (Processor.marked_tokens tk (Processor.clamp_max_len max_len) p.1).length) := by
  intro p hp i him
  simp only [Processor.preprocess] at hp
  rw [zip_self_map] at hp
  obtain ⟨t, ht, rfl⟩ := List.mem_map.mp hp
  apply mask_marks_real_tokens tk _ t _ i him
  intro s hs
  simp only [Processor.marked_tokens, List.mem_cons, List.mem_append,
    List.mem_singleton, List.not_mem_nil, or_false] at hs
  rcases hs with rfl | hs | rfl
  · exact hcls
  · exact htok t ht s (pySlice0_subset _ _ s hs)
  · exact hsep

/-- Witness for C3 at a concrete tokenizer whose tokens all have non-zero
ids, one text and `max_len = 6`. -/
theorem C3_mask_real_vs_padding_witness :
    tokBert.convert_tokens_to_ids tokBert.cls_token ≠ 0 ∧
    ∀ p ∈ (["t"]).zip ((Processor.preprocess tokBert ["t"] none 6).input_mask),
      ∀ i, i < Processor.clamp_max_len 6 →
        (p.2.getD i 0 = 1 ↔
          i < (Processor.marked_tokens tokBert (Processor.clamp_max_len 6) p.1).length) :=
  ⟨by decide,
    C3_mask_real_vs_padding tokBert ["t"] none 6 (by decide) (by decide) (by decide)⟩

/-- Counterexample to C3 as stated: with a tokenizer whose padding token
has id 0 (as in the BERT vocabulary) and a text tokenizing to that token,
position 1 holds a real kept text token (the marked-token count is 3) but
the mask there is 0, because the mask is computed as the indicator of
non-zero ids, not of real-token positions. -/
theorem C3_counterexample :
    1 < (Processor.marked_tokens tokPad (Processor.clamp_max_len 6) "t").length ∧
    ((Processor.preprocess tokPad ["t"] none 6).input_mask.getD 0 []).getD 1 0 = 0 := by
  decide

/-- Claim C5: `Processor.preprocess` clamps a requested `max_len` above the
hard ceiling `MAX_SEQ_LEN = 512` to `MAX_SEQ_LEN` and warns; a request at
or below the ceiling is used unchanged with no warning. -/
theorem C5_clamp_and_warn (max_len : Nat) :
    (MAX_SEQ_LEN < max_len →
      Processor.clamp_max_len max_len = MAX_SEQ_LEN ∧ Processor.warns max_len = true) ∧
    (max_len ≤ MAX_SEQ_LEN →
      Processor.clamp_max_len max_len = max_len ∧ Processor.warns max_len = false) := by
  constructor
  · intro h
    simp [Processor.clamp_max_len, Processor.warns, h]
  · intro h
    constructor
    · simp [Processor.clamp_max_len]
      omega
    · simp [Processor.warns]
      omega

/-- Witness for C5 at the concrete requests 600 (above the ceiling) and
100 (below it). -/
theorem C5_clamp_and_warn_witness :
    (Processor.clamp_max_len 600 = MAX_SEQ_LEN ∧ Processor.warns 600 = true) ∧
    (Processor.clamp_max_len 100 = 100 ∧ Processor.warns 100 = false) :=
  ⟨(C5_clamp_and_warn 600).1 (by decide), (C5_clamp_and_warn 100).2 (by decide)⟩

/-- Claim C8: `TOKENIZER_CLASS` and `MODEL_CLASS` have exactly the same
set of keys: every model name present in one is present in the other. -/
theorem C8_registry_keys_agree :
    ∀ k : String, k ∈ TOKENIZER_CLASS.map Prod.fst ↔ k ∈ MODEL_CLASS.map Prod.fst := by
  intro k
  have h : TOKENIZER_CLASS.map Prod.fst = MODEL_CLASS.map Prod.fst := by rfl
  rw [h]

/-! Model construction, the name setter and input preparation (claim C6). -/

/-- The state a constructed `Transformer` holds at this layer: the model
name, the model type set by the name setter, and the cache directory; the
loaded weights are externally owned. -/
structure TransformerState where
  model_name : String
  model_type : Option String
  cache_dir : String
deriving DecidableEq

/-- Python dict subscript `d[k]` on an association list built by
successive `update` calls: the last binding for `k`, if any. -/
def dict_lookup {β : Type} (d : List (String × β)) (k : String) : Option β :=
  (d.reverse.find? (fun p => p.1 == k)).map Prod.snd

/-- `Transformer.__init__`: stores the name and cache directory and
subscripts the `model_class` dict, which raises `KeyError` for an absent
name; `from_pretrained` on the found class is abstracted to returning the
class tag. -/
def Transformer.init {β : Type} (model_class : List (String × β)) (model_name : String)
    (cache_dir : String) : Except PyError (TransformerState × β) :=
  match dict_lookup model_class model_name with
  | some cls =>
    .ok ({ model_name := model_name, model_type := none, cache_dir := cache_dir }, cls)
  | none => .error (.keyError model_name)

/-- `SequenceClassifier.__init__` passes `MODEL_CLASS` to the base
constructor. -/
def SequenceClassifier.init (model_name : String) (cache_dir : String) :
    Except PyError (TransformerState × ModelClass) :=
  Transformer.init MODEL_CLASS model_name cache_dir

/-- The `model_name` property setter on `Transformer` (for a
`SequenceClassifier`, `list_supported_models()` is `list(MODEL_CLASS)`):
raises `ValueError` with a message naming the offending value for an
unsupported name, otherwise updates the stored name and model type. -/
def set_model_name (st : TransformerState) (value : String) :
    Except PyError TransformerState :=
  if value ∈ list_supported_models then
    .ok { st with model_name := value, model_type := some (model_type_of value) }
  else
    .error (.valueError ("Model name " ++ value ++ " is not supported by SequenceClassifier. Call SequenceClassifier.list_supported_models to get all supported model names."))

/-- The keyword arguments `Processor.get_inputs` builds from a batch. -/
structure Inputs (T : Type) where
  input_ids : T
  attention_mask : T
  labels : Option T
deriving DecidableEq

/-- `Processor.get_inputs`: checks only the part of the model name before
the first hyphen against the four supported families. -/
def get_inputs {T : Type} (batch : T × T × T) (model_name : String)
    (train_mode : Bool) : Except PyError (Inputs T) :=
  if model_type_of model_name ∈ (["bert", "xlnet", "roberta", "distilbert"] : List String) then
    if train_mode then
      .ok { input_ids := batch.1, attention_mask := batch.2.1, labels := some batch.2.2 }
    else
      .ok { input_ids := batch.1, attention_mask := batch.2.1, labels := none }
  else
    .error (.valueError ("Model not supported: " ++ model_name))

theorem dict_lookup_eq_none {β : Type} (d : List (String × β)) (k : String)
    (h : k ∉ d.map Prod.fst) : dict_lookup d k = none := by
  unfold dict_lookup
  rw [List.find?_eq_none.mpr]
  · rfl
  · intro p hp hbeq
    rw [List.mem_reverse] at hp
    have hmem : p.1 ∈ d.map Prod.fst := List.mem_map.mpr ⟨p, hp, rfl⟩
    exact h (eq_of_beq hbeq ▸ hmem)

/-! Persistence (claim C9). -/

/-- The slice of filesystem state `save_model` touches: the set of
existing directories and the list of paths written by `save_pretrained`. -/
structure FileSystem where
  dirs : List String
  saved : List String

/-- `os.path.flatten(a, b)` for a relative second component. -/
def os_path_join (a b : String) : String :=
  if a = "" then b else if a.endsWith "/" then a ++ b else a ++ "/" ++ b

/-- `os.makedirs`. -/
def makedirs (fs : FileSystem) (d : String) : FileSystem :=
  { fs with dirs := d :: fs.dirs }

/-- `Transformer.save_model`: joins the fixed subdirectory name
`fine_tuned` onto the cache directory, creates the cache directory and
the subdirectory when missing, and saves the model (weights and
configuration) there. -/
def save_model (fs : FileSystem) (cache_dir : String) : FileSystem :=
  let output_model_dir := os_path_join cache_dir "fine_tuned"
  let fs1 := if cache_dir ∈ fs.dirs then fs else makedirs fs cache_dir
  let fs2 := if output_model_dir ∈ fs1.dirs then fs1 else makedirs fs1 output_model_dir
  { fs2 with saved := output_model_dir :: fs2.saved }

/-! The fine-tuning loop (claims C2 and C10). -/

/-- One epoch of the inner loop of `Transformer.fine_tune`, specialised
to the path `SequenceClassifier.fit` always takes (`max_steps = -1`,
`n_gpu` at most 1, `fp16 = False`), with the external model forward pass
abstracted into the per-batch loss values: per batch, the (possibly
accumulation-scaled) loss is added to `tr_loss`, and `global_step` is
incremented when `(step + 1) % gradient_accumulation_steps == 0`. -/
def epochLoop (accum : Nat) : Nat → Nat → ℚ → List ℚ → Nat × ℚ
  | _, global_step, tr_loss, [] => (global_step, tr_loss)
  | step, global_step, tr_loss, loss :: rest =>
    let l := if accum > 1 then loss / (accum : ℚ) else loss
    let tr := tr_loss + l
    let gs := if (step + 1) % accum = 0 then global_step + 1 else global_step
    epochLoop accum (step + 1) gs tr rest

/-- The epoch sequence of `Transformer.fine_tune`: each epoch runs
`epochLoop` over its batch losses and then executes the epoch-end
`del [batch]` (common.py line 235).  The Python local `batch` is bound by
the first iteration of any inner batch loop and stays bound across
epochs, so the `del` raises `UnboundLocalError` exactly when no batch has
ever been yielded. -/
def epochsRun (accum : Nat) : Nat → ℚ → Bool → List (List ℚ) → Except PyError (Nat × ℚ)
  | gs, tl, _, [] => .ok (gs, tl)
  | gs, tl, bound, losses :: rest =>
    let p := epochLoop accum 0 gs tl losses
    if bound || !losses.isEmpty then
      epochsRun accum p.1 p.2 (bound || !losses.isEmpty) rest
    else .error (.unboundLocalError "batch")

/-- `Transformer.fine_tune` over the given per-epoch batch-loss lists:
`RandomSampler(train_dataset)` (common.py line 132) rejects an empty
dataset with `ValueError` at dataloader construction, before any epoch;
the loader yields the same batch count in every epoch, so with at least
one epoch an empty dataset is visible as an empty first-epoch loss list.
Past that guard the epochs run (including the epoch-end `del [batch]`)
and the function returns `(global_step, tr_loss / global_step)`; the
final, unguarded division raises `ZeroDivisionError` when `global_step`
is zero. -/
def fine_tune (gradient_accumulation_steps : Nat) (epoch_losses : List (List ℚ)) :
    Except PyError (Nat × ℚ) :=
  if 0 < epoch_losses.length ∧ (epoch_losses.headD []).length = 0 then
    .error (.valueError "num_samples should be a positive integer value, but got num_samples=0")
  else
    (epochsRun gradient_accumulation_steps 0 0 false epoch_losses).bind fun p =>
      if p.1 = 0 then .error .zeroDivisionError
      else .ok (p.1, p.2 / (p.1 : ℚ))

/-- Number of batches a DataLoader without `drop_last` yields for `n`
examples: `⌈n / batch_size⌉`. -/
def numBatches (n batch_size : Nat) : Nat := (n + batch_size - 1) / batch_size

/-- `SequenceClassifier.fit`: calls `fine_tune` (with the default
gradient accumulation of 1) and discards its result — the Python body has
no return statement, so a successful call returns None. -/
def fit (epoch_losses : List (List ℚ)) : Except PyError (Option (Nat × ℚ)) :=
  match fine_tune 1 epoch_losses with
  | .error e => .error e
  | .ok _ => .ok none

theorem epochLoop_one (losses : List ℚ) : ∀ step gs tl,
    epochLoop 1 step gs tl losses = (gs + losses.length, tl + losses.sum) := by
  induction losses with
  | nil =>
    intro step gs tl
    simp [epochLoop]
  | cons l rest ih =>
    intro step gs tl
    simp only [epochLoop]
    rw [if_pos (Nat.mod_one (step + 1)), if_neg (show ¬ ((1 : Nat) > 1) by omega)]
    rw [ih]
    simp only [Prod.mk.injEq, List.length_cons, List.sum_cons]
    constructor
    · omega
    · ring

theorem epochLoop_no_step (accum : Nat) (losses : List ℚ) : ∀ step gs tl,
    step + losses.length < accum → (epochLoop accum step gs tl losses).1 = gs := by
  induction losses with
  | nil =>
    intro step gs tl h
    simp [epochLoop]
  | cons l rest ih =>
    intro step gs tl h
    simp only [List.length_cons] at h
    simp only [epochLoop]
    rw [if_neg (by rw [Nat.mod_eq_of_lt (by omega)]; omega)]
    exact ih (step + 1) gs _ (by omega)

theorem except_bind_ok {ε α β : Type} (a : α) (f : α → Except ε β) :
    (Except.ok a : Except ε α).bind f = f a := rfl

theorem epochsRun_no_step (accum : Nat) (epoch_losses : List (List ℚ))
    (hne : ∀ losses ∈ epoch_losses, losses ≠ [])
    (h : ∀ losses ∈ epoch_losses, losses.length < accum) :
    ∀ (gs : Nat) (tl : ℚ) (bound : Bool), ∃ tl2,
      epochsRun accum gs tl bound epoch_losses = .ok (gs, tl2) := by
  induction epoch_losses with
  | nil =>
    intro gs tl bound
    exact ⟨tl, rfl⟩
  | cons l rest ih =>
    intro gs tl bound
    have hlne : l ≠ [] := hne l (List.mem_cons_self _ _)
    have hemp : l.isEmpty = false := by
      cases l with
      | nil => exact absurd rfl hlne
      | cons a as => rfl
    have hcond : (bound || !l.isEmpty) = true := by
      rw [hemp]
      simp
    have hstep : (epochLoop accum 0 gs tl l).1 = gs :=
      epochLoop_no_step accum l 0 gs tl (by simpa using h l (List.mem_cons_self _ _))
    obtain ⟨tl2, hrest⟩ := ih (fun x hx => hne x (List.mem_cons_of_mem _ hx))
      (fun x hx => h x (List.mem_cons_of_mem _ hx))
      (epochLoop accum 0 gs tl l).1 (epochLoop accum 0 gs tl l).2 (bound || !l.isEmpty)
    refine ⟨tl2, ?_⟩
    simp only [epochsRun]
    rw [if_pos hcond, hrest, hstep]

/-! The inference loop (claim C7). -/

/-- Fuel-indexed splitting of a dataset into consecutive batches. -/
def chunksFuel {α : Type} : Nat → Nat → List α → List (List α)
  | 0, _, _ => []
  | _ + 1, _, [] => []
  | fuel + 1, bs, xs => xs.take bs :: chunksFuel fuel bs (xs.drop bs)

/-- The batch sequence a sequential DataLoader yields: consecutive slices
of size `batch_size` (last one possibly shorter). -/
def batches {α : Type} (batch_size : Nat) (xs : List α) : List (List α) :=
  chunksFuel xs.length batch_size xs

/-- `Transformer.predict`: a generator yielding one logit array per
batch, with the external model forward pass abstracted by `logits`. -/
def Transformer.predict {α : Type} (logits : α → List ℚ) (eval_dataset : List α)
    (eval_batch_size : Nat) : List (List (List ℚ)) :=
  (batches eval_batch_size eval_dataset).map (fun batch => batch.map logits)

/-- `np.concatenate`: raises `ValueError` on an empty list of arrays. -/
def np_concatenate {α : Type} (arrays : List (List α)) : Except PyError (List α) :=
  if arrays.isEmpty then
    .error (.valueError "need at least one array to concatenate")
  else .ok arrays.flatten

/-- Interior loop of `np.argmax`: index of the first running maximum. -/
def argmaxGo : List ℚ → Nat → Nat → ℚ → Nat
  | [], _, best, _ => best
  | x :: xs, i, best, bv =>
    if bv < x then argmaxGo xs (i + 1) i x else argmaxGo xs (i + 1) best bv

/-- `np.argmax` over one row: raises on an empty row. -/
def np_argmax (xs : List ℚ) : Except PyError Nat :=
  match xs with
  | [] => .error (.valueError "attempt to get argmax of an empty sequence")
  | x :: rest => .ok (argmaxGo rest 1 0 x)

/-- Total version of the argmax index, for stating results. -/
def argmaxIdx (xs : List ℚ) : Nat :=
  match xs with
  | [] => 0
  | x :: rest => argmaxGo rest 1 0 x

/-- `SequenceClassifier.predict`: collects the generator output,
concatenates the per-batch arrays, and takes the per-row argmax over the
label dimension. -/
def SequenceClassifier.predict {α : Type} (logits : α → List ℚ) (eval_dataset : List α)
    (batch_size : Nat) : Except PyError (List Nat) := do
  let preds ← np_concatenate (Transformer.predict logits eval_dataset batch_size)
  preds.mapM np_argmax

theorem chunksFuel_flatten {α : Type} (bs : Nat) (hb : 1 ≤ bs) :
    ∀ (fuel : Nat) (xs : List α), xs.length ≤ fuel →
      (chunksFuel fuel bs xs).flatten = xs := by
  intro fuel
  induction fuel with
  | zero =>
    intro xs h
    have hnil : xs = [] := List.eq_nil_of_length_eq_zero (by omega)
    subst hnil
    rfl
  | succ f ih =>
    intro xs h
    cases xs with
    | nil => rfl
    | cons y ys =>
      simp only [chunksFuel, List.flatten_cons]
      rw [ih ((y :: ys).drop bs) (by simp only [List.length_drop, List.length_cons] at h ⊢; omega)]
      exact List.take_append_drop bs (y :: ys)

theorem batches_flatten {α : Type} (bs : Nat) (xs : List α) (hb : 1 ≤ bs) :
    (batches bs xs).flatten = xs :=
  chunksFuel_flatten bs hb xs.length xs (Nat.le_refl _)

theorem batches_ne_nil {α : Type} (bs : Nat) (xs : List α) (h : xs ≠ []) :
    batches bs xs ≠ [] := by
  cases xs with
  | nil => exact absurd rfl h
  | cons y ys => simp [batches, chunksFuel]

theorem predict_rows {α : Type} (logits : α → List ℚ) (ds : List α) (bs : Nat)
    (hb : 1 ≤ bs) :
    (Transformer.predict logits ds bs).flatten = ds.map logits := by
  unfold Transformer.predict
  rw [← List.map_flatten, batches_flatten bs ds hb]

theorem argmaxGo_lt (xs : List ℚ) : ∀ i best bv, best < i →
    argmaxGo xs i best bv < i + xs.length := by
  induction xs with
  | nil =>
    intro i best bv h
    simp only [argmaxGo, List.length_nil]
    omega
  | cons x rest ih =>
    intro i best bv h
    simp only [argmaxGo, List.length_cons]
    split
    · have := ih (i + 1) i x (by omega)
      omega
    · have := ih (i + 1) best bv (by omega)
      omega

theorem argmaxIdx_lt (xs : List ℚ) (h : xs ≠ []) : argmaxIdx xs < xs.length := by
  cases xs with
  | nil => exact absurd rfl h
  | cons x rest =>
    simp only [argmaxIdx, List.length_cons]
    have := argmaxGo_lt rest 1 0 x (by omega)
    omega

theorem np_argmax_ok (xs : List ℚ) (h : xs ≠ []) : np_argmax xs = .ok (argmaxIdx xs) := by
  cases xs with
  | nil => exact absurd rfl h
  | cons x rest => rfl

theorem mapM_np_argmax (rows : List (List ℚ)) (h : ∀ r ∈ rows, r ≠ []) :
    rows.mapM np_argmax = .ok (rows.map argmaxIdx) := by
  induction rows with
  | nil => rfl
  | cons r rest ih =>
    rw [List.mapM_cons]
    rw [np_argmax_ok r (h r (List.mem_cons_self _ _))]
    rw [ih (fun x hx => h x (List.mem_cons_of_mem _ hx))]
    rfl

/-- Claim C6 (amended): for a model name absent from the registry,
construction raises a `KeyError` naming the value (a dict lookup error,
not a descriptive invalid-argument error) and the name setter raises a
`ValueError` whose message names the value; input preparation
(`Processor.get_inputs`), however, checks only the part of the name
before the first hyphen and raises `ValueError` exactly when that prefix
is not one of bert, xlnet, roberta, distilbert, so an unregistered name
with a supported prefix is accepted (see the counterexample). -/
theorem C6_invalid_model_name :
    (∀ name cache, name ∉ MODEL_CLASS.map Prod.fst →
      SequenceClassifier.init name cache = .error (.keyError name)) ∧
    (∀ st value, value ∉ list_supported_models →
      set_model_name st value = .error (.valueError ("Model name " ++ value ++ " is not supported by SequenceClassifier. Call SequenceClassifier.list_supported_models to get all supported model names."))) ∧
    (∀ (batch : Nat × Nat × Nat) name train_mode,
      model_type_of name ∉ (["bert", "xlnet", "roberta", "distilbert"] : List String) →
      get_inputs batch name train_mode =
        .error (.valueError ("Model not supported: " ++ name))) := by
  refine ⟨?_, ?_, ?_⟩
  · intro name cache h
    unfold SequenceClassifier.init Transformer.init
    rw [dict_lookup_eq_none _ _ h]
  · intro st value h
    unfold set_model_name
    rw [if_neg h]
  · intro batch name train_mode h
    unfold get_inputs
    rw [if_neg h]

/-- Witness for C6 at the concrete unregistered name gpt2-medium. -/
theorem C6_invalid_model_name_witness :
    SequenceClassifier.init "gpt2-medium" "." = .error (.keyError "gpt2-medium") ∧
    set_model_name ⟨"bert-base-cased", none, "."⟩ "gpt2-medium" =
      .error (.valueError ("Model name " ++ "gpt2-medium" ++ " is not supported by SequenceClassifier. Call SequenceClassifier.list_supported_models to get all supported model names.")) ∧
    get_inputs ((1, 2, 3) : Nat × Nat × Nat) "gpt2-medium" true =
      .error (.valueError ("Model not supported: " ++ "gpt2-medium")) :=
  ⟨C6_invalid_model_name.1 "gpt2-medium" "." (by decide),
   C6_invalid_model_name.2.1 ⟨"bert-base-cased", none, "."⟩ "gpt2-medium" (by decide),
   C6_invalid_model_name.2.2 (1, 2, 3) "gpt2-medium" true (by decide)⟩

/-- Counterexample to C6 as stated: `bert-fictional-model` is not present
in the supported-model registry, yet `Processor.get_inputs` accepts it
and returns the input mapping instead of raising, because only the part
of the name before the first hyphen is checked. -/
theorem C6_counterexample :
    "bert-fictional-model" ∉ MODEL_CLASS.map Prod.fst ∧
    get_inputs ((1, 2, 3) : Nat × Nat × Nat) "bert-fictional-model" true =
      .ok { input_ids := 1, attention_mask := 2, labels := some 3 } := by
  constructor
  · decide
  · rfl

/-- Claim C9: `save_model` writes the model (weights and configuration)
under the fixed subdirectory `fine_tuned` of the instance's cache
directory, creating both the cache directory and the subdirectory when
they do not already exist. -/
theorem C9_save_model_layout (fs : FileSystem) (cache_dir : String) :
    cache_dir ∈ (save_model fs cache_dir).dirs ∧
    os_path_join cache_dir "fine_tuned" ∈ (save_model fs cache_dir).dirs ∧
    (save_model fs cache_dir).saved = os_path_join cache_dir "fine_tuned" :: fs.saved := by
  have hd2 : ∀ (g : FileSystem) (d : String),
      d ∈ (if d ∈ g.dirs then g else makedirs g d).dirs := by
    intro g d
    by_cases h : d ∈ g.dirs
    · rwa [if_pos h]
    · rw [if_neg h]
      exact List.mem_cons_self _ _
  have hsub : ∀ (g : FileSystem) (d e : String), e ∈ g.dirs →
      e ∈ (if d ∈ g.dirs then g else makedirs g d).dirs := by
    intro g d e he
    by_cases h : d ∈ g.dirs
    · rwa [if_pos h]
    · rw [if_neg h]
      exact List.mem_cons_of_mem _ he
  have hsaved : ∀ (g : FileSystem) (d : String),
      (if d ∈ g.dirs then g else makedirs g d).saved = g.saved := by
    intro g d
    by_cases h : d ∈ g.dirs
    · rw [if_pos h]
    · rw [if_neg h]
      rfl
  exact ⟨hsub (if cache_dir ∈ fs.dirs then fs else makedirs fs cache_dir)
      (os_path_join cache_dir "fine_tuned") cache_dir (hd2 fs cache_dir),
    hd2 (if cache_dir ∈ fs.dirs then fs else makedirs fs cache_dir)
      (os_path_join cache_dir "fine_tuned"),
    congrArg (List.cons (os_path_join cache_dir "fine_tuned"))
      ((hsaved (if cache_dir ∈ fs.dirs then fs else makedirs fs cache_dir)
        (os_path_join cache_dir "fine_tuned")).trans (hsaved fs cache_dir))⟩

/-- Claim C2 (amended): `SequenceClassifier.fit` itself returns None (its
body has no return statement); the `Transformer.fine_tune` call it makes
does return a pair in which, for 1 epoch with the accumulation of 1 that
`fit` always uses and batch losses for `⌈N / batch_size⌉` batches, the
step count equals `⌈N / batch_size⌉` and the average loss is the batch
mean, finite and non-negative whenever every batch loss is
non-negative. -/
theorem C2_fit_one_epoch (n batch_size : Nat) (losses : List ℚ)
    (hb : 1 ≤ batch_size) (hn : 1 ≤ n)
    (hlen : losses.length = numBatches n batch_size)
    (hpos : ∀ l ∈ losses, 0 ≤ l) :
    fit [losses] = .ok none ∧
    fine_tune 1 [losses] =
      .ok (numBatches n batch_size, losses.sum / (numBatches n batch_size : ℚ)) ∧
    0 ≤ losses.sum / (numBatches n batch_size : ℚ) := by
  have hnb : 1 ≤ numBatches n batch_size := by
    unfold numBatches
    rw [Nat.le_div_iff_mul_le (by omega)]
    omega
  have hft : fine_tune 1 [losses] =
      .ok (numBatches n batch_size, losses.sum / (numBatches n batch_size : ℚ)) := by
    have hemp : losses.isEmpty = false := by
      cases losses with
      | nil =>
        exfalso
        simp at hlen
        omega
      | cons a as => rfl
    have hguard : ¬ (0 < ([losses] : List (List ℚ)).length ∧
        (([losses] : List (List ℚ)).headD []).length = 0) := by
      rintro ⟨-, hhead⟩
      simp only [List.headD_cons] at hhead
      omega
    have hrun : epochsRun 1 0 0 false [losses] = .ok (losses.length, losses.sum) := by
      simp only [epochsRun]
      rw [if_pos (by rw [hemp]; simp)]
      rw [epochLoop_one losses 0 0 0]
      simp [epochsRun]
    unfold fine_tune
    rw [if_neg hguard, hrun]
    simp only [except_bind_ok]
    rw [hlen]
    rw [if_neg (by omega)]
  have hsum : 0 ≤ losses.sum := List.sum_nonneg hpos
  refine ⟨?_, hft, div_nonneg hsum (Nat.cast_nonneg _)⟩
  unfold fit
  rw [hft]

/-- Witness for C2 at N = 3 examples, batch size 2 (hence 2 batches) and
batch losses 1 and 2. -/
theorem C2_fit_one_epoch_witness :
    fit [[(1 : ℚ), 2]] = .ok none ∧
    fine_tune 1 [[(1 : ℚ), 2]] =
      .ok (numBatches 3 2, ([(1 : ℚ), 2] : List ℚ).sum / (numBatches 3 2 : ℚ)) ∧
    0 ≤ ([(1 : ℚ), 2] : List ℚ).sum / (numBatches 3 2 : ℚ) :=
  C2_fit_one_epoch 3 2 [1, 2] (by decide) (by decide) (by decide) (by decide)

/-- Counterexample to C2 as stated: on a one-epoch run of two batches
with losses 1 and 2, `SequenceClassifier.fit` returns None — the pair
(2, 3/2) computed and returned by `Transformer.fine_tune` is discarded
because `fit` has no return statement. -/
theorem C2_counterexample :
    fit [[(1 : ℚ), 2]] = .ok none ∧
    fine_tune 1 [[(1 : ℚ), 2]] = .ok (2, 3 / 2) := by
  constructor
  · rfl
  · show Except.ok (2, (0 + 1 + 2 : ℚ) / ((2 : Nat) : ℚ)) = Except.ok (2, 3 / 2)
    norm_num

/-- Claim C10 (amended): in `Transformer.fine_tune` the final
average-loss computation divides the accumulated loss by the completed
optimization-step count without a guard: whenever every epoch yields at
least one micro-batch but fewer than `gradient_accumulation_steps`,
`global_step` is still zero when the division is performed, so the call
raises `ZeroDivisionError` instead of returning an average loss.  On an
empty dataset, however, the division is never reached — `RandomSampler`
rejects the empty dataset with `ValueError` at dataloader construction
(and even an empty loader would fail at the epoch-end `del [batch]` with
`UnboundLocalError`): see the counterexample. -/
theorem C10_unguarded_division (accum : Nat) (epoch_losses : List (List ℚ))
    (hne : ∀ losses ∈ epoch_losses, losses ≠ [])
    (h : ∀ losses ∈ epoch_losses, losses.length < accum) :
    fine_tune accum epoch_losses = .error .zeroDivisionError := by
  obtain ⟨tl2, hrun⟩ := epochsRun_no_step accum epoch_losses hne h 0 0 false
  have hguard : ¬ (0 < epoch_losses.length ∧ (epoch_losses.headD []).length = 0) := by
    rintro ⟨hlen, hhead⟩
    cases epoch_losses with
    | nil => simp at hlen
    | cons l rest =>
      have hl := hne l (List.mem_cons_self _ _)
      simp only [List.headD_cons] at hhead
      exact hl (List.eq_nil_of_length_eq_zero hhead)
  unfold fine_tune
  rw [if_neg hguard, hrun]
  simp [except_bind_ok]

/-- Witness for C10: one epoch of a single batch under accumulation 2
reaches the division with a step count of zero and raises. -/
theorem C10_unguarded_division_witness :
    fine_tune 2 [[(5 : ℚ)]] = .error .zeroDivisionError :=
  C10_unguarded_division 2 [[5]] (by decide) (by decide)

/-- Counterexample to C10 as stated: on the empty dataset (one epoch,
zero micro-batches) the division is never performed — the run fails at
dataloader construction with the `RandomSampler` `ValueError`, an earlier
and different error than the `ZeroDivisionError` the claim attributes to
the unguarded division. -/
theorem C10_counterexample :
    fine_tune 1 [([] : List ℚ)] =
      .error (.valueError "num_samples should be a positive integer value, but got num_samples=0") ∧
    fine_tune 1 [([] : List ℚ)] ≠ .error .zeroDivisionError := by
  have hval : fine_tune 1 [([] : List ℚ)] =
      .error (.valueError "num_samples should be a positive integer value, but got num_samples=0") := rfl
  refine ⟨hval, ?_⟩
  intro hzero
  rw [hval] at hzero
  exact PyError.noConfusion (Except.error.inj hzero)

/-- Claim C7 (amended): for every nonempty dataset, positive batch size
and positive label count, with each logit row of length `num_labels`,
`SequenceClassifier.predict` returns exactly one predicted class per
input example, in the dataset's order (the argmax of that example's
row), each in `[0, num_labels)`.  (On the empty dataset the code raises
instead: see the counterexample.) -/
theorem C7_predict_classes {α : Type} (logits : α → List ℚ) (eval_dataset : List α)
    (batch_size num_labels : Nat)
    (hb : 1 ≤ batch_size) (hne : eval_dataset ≠ []) (hnl : 1 ≤ num_labels)
    (hrows : ∀ x, (logits x).length = num_labels) :
    SequenceClassifier.predict logits eval_dataset batch_size =
      .ok (eval_dataset.map (fun x => argmaxIdx (logits x))) ∧
    (eval_dataset.map (fun x => argmaxIdx (logits x))).length = eval_dataset.length ∧
    ∀ c ∈ eval_dataset.map (fun x => argmaxIdx (logits x)), c < num_labels := by
  have hrow_ne : ∀ r ∈ eval_dataset.map logits, r ≠ [] := by
    intro r hr
    obtain ⟨x, _, rfl⟩ := List.mem_map.mp hr
    have := hrows x
    intro hnil
    rw [hnil] at this
    simp at this
    omega
  have hT_ne : Transformer.predict logits eval_dataset batch_size ≠ [] := by
    unfold Transformer.predict
    simp only [ne_eq, List.map_eq_nil_iff]
    exact batches_ne_nil batch_size eval_dataset hne
  have hconcat : np_concatenate (Transformer.predict logits eval_dataset batch_size) =
      .ok (eval_dataset.map logits) := by
    unfold np_concatenate
    rw [if_neg (by simpa [List.isEmpty_iff] using hT_ne)]
    rw [predict_rows logits eval_dataset batch_size hb]
  have hmain : SequenceClassifier.predict logits eval_dataset batch_size =
      .ok (eval_dataset.map (fun x => argmaxIdx (logits x))) := by
    show (np_concatenate (Transformer.predict logits eval_dataset batch_size) >>=
      fun preds => preds.mapM np_argmax) = _
    rw [hconcat]
    show (eval_dataset.map logits).mapM np_argmax = _
    rw [mapM_np_argmax _ hrow_ne]
    rw [List.map_map]
    rfl
  refine ⟨hmain, List.length_map _ _, ?_⟩
  intro c hc
  obtain ⟨x, _, rfl⟩ := List.mem_map.mp hc
  have hlt := argmaxIdx_lt (logits x) (hrow_ne (logits x) (List.mem_map_of_mem _ (by assumption)))
  rw [hrows x] at hlt
  exact hlt

/-- Witness for C7 on the three-example dataset 0, 1, 2 with two labels,
batch size 2 and logit rows pairing the example value with 0. -/
theorem C7_predict_classes_witness :
    SequenceClassifier.predict (fun v : Nat => [(v : ℚ), 0]) [0, 1, 2] 2 =
      .ok (([0, 1, 2] : List Nat).map (fun x => argmaxIdx [(x : ℚ), 0])) ∧
    (([0, 1, 2] : List Nat).map (fun x => argmaxIdx [(x : ℚ), 0])).length =
      ([0, 1, 2] : List Nat).length ∧
    ∀ c ∈ ([0, 1, 2] : List Nat).map (fun x => argmaxIdx [(x : ℚ), 0]), c < 2 :=
  C7_predict_classes (fun v : Nat => [(v : ℚ), 0]) [0, 1, 2] 2 2 (by decide)
    (by decide) (by decide) (fun x => rfl)

/-- Counterexample to C7 as stated: on the empty dataset (N = 0) the
generator yields no batch arrays and `np.concatenate` of an empty list
raises `ValueError`, so `predict` raises instead of returning zero
classes. -/
theorem C7_counterexample :
    SequenceClassifier.predict (fun v : Nat => [(v : ℚ), 0]) [] 16 =
      .error (.valueError "need at least one array to concatenate") := rfl

end NlpRecipes
